import Mathlib

/-!
Verification development for the rikline code-review analysis engine.

The development shallowly embeds the TypeScript sources of the engine:

* `CodeReview.HeuristicSvc` — the pattern-based scanner service in
  `src/services/code-review/CodeReviewService.ts` (checkCodeQuality,
  checkSecurity, checkPerformance, checkCodeStyle and their driver).
* `CodeReview.ProviderSvc` — the provider-orchestrating service
  (AI analysis, third-party provider fan-out, metrics, summary,
  maintainability index, directory aggregation).
* `CodeReview.ReviewTool` — the tool layer (`codeReviewTool.ts`):
  legacy-string mapping, issue filtering and the post-filter summary.
* `CodeReview.ProvidersConfig` — the provider templates, config
  validator and settings manager (`third-party-providers.config.ts`).
* `CodeReview.Spec` — definitions written from the specification's own
  words, used only to compare a claimed behaviour with the embedded code.

File contents (strings) are modelled as `List Char`; JavaScript string
primitives (`split`, `trim`, `includes`, `endsWith`) and the concrete
regular expressions used by the scanners are translated into executable
Lean functions with the regular expressions' existential `test` semantics.
JavaScript numbers are modelled as `Nat`/`Int` where the source only does
counting, and as `ℝ` (with `Real.log` for `Math.log` and Mathlib's `round`
for `Math.round`, both of which agree with the float semantics on the
inputs considered here) for the maintainability-index formulas.
-/

namespace CodeReview

/-- All suffixes of a character list, longest first; the position list that
an unanchored JavaScript regex `test` walks over. -/
def sufs : List Char → List (List Char)
  | [] => [[]]
  | c :: t => (c :: t) :: sufs t

/-- Substring containment, the model of JavaScript `String.includes`. -/
def containsSub (pat text : List Char) : Bool :=
  (sufs text).any (fun suf => pat.isPrefixOf suf)

/-- Convenience form of `containsSub` taking the pattern as a literal. -/
def subStr (pat : String) (text : List Char) : Bool :=
  containsSub pat.toList text

/-- Number of positions of `text` at which `pat` occurs as a substring. -/
def countSub (pat text : List Char) : Nat :=
  (sufs text).countP (fun suf => pat.isPrefixOf suf)

/-- Model of JavaScript `String.trim`: drop whitespace from both ends.
JavaScript also trims some exotic Unicode spaces; the sources only ever
meet ASCII whitespace, which `Char.isWhitespace` covers. -/
def jsTrim (l : List Char) : List Char :=
  ((l.dropWhile Char.isWhitespace).reverse.dropWhile Char.isWhitespace).reverse

/-- Model of JavaScript `content.split("\n")`: split at every newline,
keeping empty pieces (so `"" ↦ [""]` and `"a\n" ↦ ["a", ""]`). -/
def splitLines : List Char → List (List Char)
  | [] => [[]]
  | c :: t =>
    if c = '\n' then [] :: splitLines t
    else
      match splitLines t with
      | [] => [[c]]
      | h :: r => (c :: h) :: r

/-- Left-to-right scan implementing JavaScript `split(/\s+/)`: `cur` is
the piece being built (reversed), `lastWs` records whether the scanner is
inside a whitespace separator run (in which state `cur` is empty).  A
whitespace character closes the current piece unless one was just closed;
the final piece is always emitted, so a leading (resp. trailing)
whitespace run yields an empty first (resp. last) piece, exactly as the
JavaScript split does. -/
def jsSplitWsGo : List Char → Bool → List Char → List (List Char)
  | cur, _, [] => [cur.reverse]
  | cur, lastWs, c :: t =>
    if c.isWhitespace then
      if lastWs then jsSplitWsGo cur true t
      else cur.reverse :: jsSplitWsGo [] true t
    else jsSplitWsGo (c :: cur) false t

/-- Model of JavaScript `content.split(/\s+/)`: the maximal runs of
non-whitespace characters, together with an empty leading (resp.
trailing) piece when the string starts (resp. ends) with whitespace. -/
def jsSplitWs (l : List Char) : List (List Char) :=
  jsSplitWsGo [] false l

/-- Scan computing the whitespace-delimited words: as `jsSplitWsGo`, but
empty pieces are never emitted. -/
def wsTokensGo : List Char → List Char → List (List Char)
  | cur, [] => if cur.isEmpty then [] else [cur.reverse]
  | cur, c :: t =>
    if c.isWhitespace then
      if cur.isEmpty then wsTokensGo [] t
      else cur.reverse :: wsTokensGo [] t
    else wsTokensGo (c :: cur) t

/-- The whitespace-delimited words of a character list: maximal nonempty
runs of non-whitespace characters, in order.  This is the clean token
reading used by the amended complexity claim. -/
def wsTokens (l : List Char) : List (List Char) :=
  wsTokensGo [] l

/-- Issue categories (`CodeReviewType` in the sources; the legacy
lowercase string unions of the heuristic service use the same values). -/
inductive CodeReviewType where
  | quality
  | security
  | performance
  | style
  | bug
  | maintainability
deriving DecidableEq, BEq, Repr

/-- Severity levels (`SeverityLevel` in the sources). -/
inductive SeverityLevel where
  | critical
  | high
  | medium
  | low
  | info
deriving DecidableEq, BEq, Repr

/-- One finding (`CodeIssue`).  The optional fields carry `none` when the
constructing source object omits them; the heuristic service's own
`CodeIssue` interface declares no `source` field at all, so issues built
there read back `undefined` for it, modelled as `none`.  Fields of the
interfaces that no embedded code path reads or writes (endLine, tags,
fixes, confidence, description, …) are omitted. -/
structure CodeIssue where
  type : CodeReviewType
  severity : SeverityLevel
  message : String
  file : String
  line : Nat
  column : Option Nat := none
  suggestion : Option String := none
  ruleId : Option String := none
  source : Option String := none
deriving DecidableEq, Repr

namespace HeuristicSvc

/-- Case-insensitive literal matching: consume the (lowercase) pattern from
the front of the input, returning the rest on success.  This is the `/i`
flag semantics for the literal parts of the secret regexes. -/
def charsCI : List Char → List Char → Option (List Char)
  | [], rest => some rest
  | _ :: _, [] => none
  | p :: ps, c :: cs => if c.toLower = p then charsCI ps cs else none

/-- Character class `[\w\d@#$%^&*()_+\-=\[\]{}|\\:";'<>?,./]` of the
hardcoded-password regex (`\w` is `[A-Za-z0-9_]`). -/
def passwordCls (c : Char) : Bool :=
  c.isAlphanum || c == '_' ||
    ['@', '#', '$', '%', '^', '&', '*', '(', ')', '+', '-', '=',
      '[', ']', '\x7b', '\x7d', '|', '\\', ':', '"', ';', '\'',
      '<', '>', '?', ',', '.', '/'].contains c

/-- Character class `[\w\d\-_]` of the api-key and secret regexes. -/
def keyCls (c : Char) : Bool :=
  c.isAlphanum || c == '_' || c == '-'

/-- Character class `[\w\d\-_\.]` of the token regex. -/
def tokenCls (c : Char) : Bool :=
  keyCls c || c == '.'

/-- After at least one class character has been consumed, a match of
`[cls]+["']` succeeds at the current position iff the current character is
a closing quote, or it is in the class and the tail matches; the
disjunction realises the regex engine's backtracking as an existential. -/
def quoteLoop (cls : Char → Bool) : List Char → Bool
  | [] => false
  | c :: rest => (c == '"' || c == '\'') || (cls c && quoteLoop cls rest)

/-- Match `[cls]+["']` at the front of the input. -/
def clsQuoted (cls : Char → Bool) : List Char → Bool
  | [] => false
  | c :: rest => cls c && quoteLoop cls rest

/-- Match `\s*=\s*["'][cls]+["']` at the front of the input.  Greedy
whitespace skipping is exact because `=` and the quotes are not
whitespace. -/
def eqQuoted (cls : Char → Bool) (s : List Char) : Bool :=
  match s.dropWhile Char.isWhitespace with
  | '=' :: s2 =>
    match s2.dropWhile Char.isWhitespace with
    | q :: s3 => (q == '"' || q == '\'') && clsQuoted cls s3
    | [] => false
  | _ => false

/-- Match of `/password\s*=\s*["'][…]+["']/i` starting at the given
position. -/
def passwordAt (s : List Char) : Bool :=
  match charsCI "password".toList s with
  | some r => eqQuoted passwordCls r
  | none => false

/-- Match `key\s*=\s*["'][\w\d\-_]+["']` (case-insensitively) at the given
position; the tail shared by both branches of `api[_-]?key`. -/
def keyFrom (s : List Char) : Bool :=
  match charsCI "key".toList s with
  | some r => eqQuoted keyCls r
  | none => false

/-- Match of `/api[_-]?key\s*=\s*["'][\w\d\-_]+["']/i` starting at the
given position; the optional `[_-]?` yields the two disjuncts. -/
def apiKeyAt (s : List Char) : Bool :=
  match charsCI "api".toList s with
  | none => false
  | some r =>
    (match r with
     | c :: r2 => (c == '_' || c == '-') && keyFrom r2
     | [] => false) || keyFrom r

/-- Match of `/secret\s*=\s*["'][\w\d\-_]+["']/i` starting at the given
position. -/
def secretAt (s : List Char) : Bool :=
  match charsCI "secret".toList s with
  | some r => eqQuoted keyCls r
  | none => false

/-- Match of `/token\s*=\s*["'][\w\d\-_\.]+["']/i` starting at the given
position. -/
def tokenAt (s : List Char) : Bool :=
  match charsCI "token".toList s with
  | some r => eqQuoted tokenCls r
  | none => false

/-- Unanchored `RegExp.test`: the pattern matches at some position. -/
def testAnywhere (m : List Char → Bool) (s : List Char) : Bool :=
  (sufs s).any m

/-- Character class `[a-zA-Z_$]` of the magic-number lookarounds.
`Char.isAlpha` is the ASCII letter test, matching the regex class. -/
def identChar (c : Char) : Bool :=
  c.isAlpha || c == '_' || c == '$'

/-- Having consumed `cnt` digits of a candidate `\d{2,}` match, the match
can end here (needs `cnt ≥ 2` and a right boundary that is not in
`[a-zA-Z_$]` — a following digit is allowed) or extend over one more
digit. -/
def magicFrom : List Char → Nat → Bool
  | [], cnt => decide (2 ≤ cnt)
  | c :: t, cnt => (decide (2 ≤ cnt) && !identChar c) || (c.isDigit && magicFrom t (cnt + 1))

/-- Scan for `/(?<![a-zA-Z_$])\d{2,}(?![a-zA-Z_$])/`: at each position
whose previous character (if any) is not in `[a-zA-Z_$]`, try to start a
run of at least two digits.  A digit as previous character passes the
lookbehind, exactly as in the regex. -/
def magicScan : Option Char → List Char → Bool
  | _, [] => false
  | prev, c :: t =>
    ((match prev with
      | none => true
      | some p => !identChar p) && c.isDigit && magicFrom t 1) ||
      magicScan (some c) t

/-- JavaScript `magicNumberPattern.test(line)`; the regex object is
re-created per line in the source, so no `lastIndex` state survives. -/
def magicNumberTest (s : List Char) : Bool :=
  magicScan none s

/-- Extension gate of the JavaScript/TypeScript specific rules. -/
def jsExts : List String := [".js", ".ts", ".jsx", ".tsx"]

/-- Extension gate of the XSS rule. -/
def xssExts : List String := [".js", ".ts", ".jsx", ".tsx", ".html"]

/-- Issues the `checkCodeQuality` rules emit for one line, in source push
order: long line, technical-debt comment, deep nesting, then (for
JavaScript-family files) console.log and magic numbers.  The nesting test
is `(leading [\t\s]* run length) / 2 > 6`, i.e. length greater than 12. -/
def qualityLine (filePath ext : String) (idx : Nat) (line : List Char) : List CodeIssue :=
  let lineNumber := idx + 1
  let trimmed := jsTrim line
  (if 120 < line.length then
    [{ type := .quality, severity := .low,
       message := "Line too long (" ++ toString line.length ++ " characters). Consider breaking it down.",
       file := filePath, line := lineNumber,
       suggestion := some "Break long lines into multiple lines for better readability",
       ruleId := some "line-length" }]
  else []) ++
  (if subStr "TODO" trimmed || subStr "FIXME" trimmed || subStr "HACK" trimmed then
    [{ type := .quality, severity := .medium,
       message := "Found TODO/FIXME/HACK comment. Consider addressing this technical debt.",
       file := filePath, line := lineNumber,
       suggestion := some "Address the technical debt mentioned in the comment",
       ruleId := some "technical-debt" }]
  else []) ++
  (if 12 < (line.takeWhile Char.isWhitespace).length then
    [{ type := .quality, severity := .high,
       message := "Deep nesting detected. Consider refactoring to reduce complexity.",
       file := filePath, line := lineNumber,
       suggestion := some "Extract nested logic into separate functions",
       ruleId := some "deep-nesting" }]
  else []) ++
  (if jsExts.contains ext then
    (if subStr "console.log" trimmed then
      [{ type := .quality, severity := .low,
         message := "Console.log statement found. Remove debug statements before production.",
         file := filePath, line := lineNumber,
         suggestion := some "Use proper logging library or remove debug statements",
         ruleId := some "console-log" }]
    else []) ++
    (if magicNumberTest trimmed && !subStr "const" trimmed && !subStr "let" trimmed then
      [{ type := .quality, severity := .medium,
         message := "Magic number detected. Consider using named constants.",
         file := filePath, line := lineNumber,
         suggestion := some "Define constants for magic numbers to improve readability",
         ruleId := some "magic-numbers" }]
    else [])
  else [])

/-- Embedding of `checkCodeQuality`. -/
def checkCodeQuality (content : List Char) (filePath ext : String) : List CodeIssue :=
  ((splitLines content).enum.map (fun p => qualityLine filePath ext p.1 p.2)).flatten

/-- The issue pushed for every matching hardcoded-secret pattern. -/
def secretIssue (filePath : String) (lineNumber : Nat) : CodeIssue :=
  { type := .security, severity := .critical,
    message := "Hardcoded secret detected. Secrets should be stored in environment variables.",
    file := filePath, line := lineNumber,
    suggestion := some "Move secrets to environment variables or secure configuration",
    ruleId := some "hardcoded-secrets" }

/-- Issues the `checkSecurity` rules emit for one line, in source order:
one secret issue per matching pattern (password, api-key, secret, token),
then SQL injection, XSS (web extensions only) and insecure randomness.
All tests run on the trimmed line, as in the source. -/
def securityLine (filePath ext : String) (idx : Nat) (line : List Char) : List CodeIssue :=
  let lineNumber := idx + 1
  let trimmed := jsTrim line
  (if testAnywhere passwordAt trimmed then [secretIssue filePath lineNumber] else []) ++
  (if testAnywhere apiKeyAt trimmed then [secretIssue filePath lineNumber] else []) ++
  (if testAnywhere secretAt trimmed then [secretIssue filePath lineNumber] else []) ++
  (if testAnywhere tokenAt trimmed then [secretIssue filePath lineNumber] else []) ++
  (if subStr "query" trimmed && subStr "+" trimmed then
    [{ type := .security, severity := .high,
       message := "Potential SQL injection vulnerability. Use parameterized queries.",
       file := filePath, line := lineNumber,
       suggestion := some "Use parameterized queries or ORM to prevent SQL injection",
       ruleId := some "sql-injection" }]
  else []) ++
  (if xssExts.contains ext then
    (if subStr "innerHTML" trimmed && !subStr "textContent" trimmed then
      [{ type := .security, severity := .high,
         message := "Potential XSS vulnerability. Avoid using innerHTML with user data.",
         file := filePath, line := lineNumber,
         suggestion := some "Use textContent or properly sanitize HTML content",
         ruleId := some "xss-vulnerability" }]
    else [])
  else []) ++
  (if subStr "Math.random()" trimmed &&
      (subStr "crypto" trimmed || subStr "password" trimmed || subStr "token" trimmed) then
    [{ type := .security, severity := .high,
       message := "Math.random() is not cryptographically secure. Use crypto.randomBytes() for security-related randomness.",
       file := filePath, line := lineNumber,
       suggestion := some "Use crypto.randomBytes() or crypto.getRandomValues() for secure randomness",
       ruleId := some "insecure-random" }]
  else [])

/-- Embedding of `checkSecurity`. -/
def checkSecurity (content : List Char) (filePath ext : String) : List CodeIssue :=
  ((splitLines content).enum.map (fun p => securityLine filePath ext p.1 p.2)).flatten

/-- Whether an optional neighbouring line contains `getElementById`; an
out-of-range index is JavaScript `undefined`, whose optional-chained
`includes` is falsy. -/
def neighborHasGet : Option (List Char) → Bool
  | some l => subStr "getElementById" l
  | none => false

/-- Issues the `checkPerformance` rules emit for one line (all rules are
gated on JavaScript-family extensions): synchronous file operations,
uncached loop lengths, and repeated DOM queries, whose test consults the
raw previous and next lines. -/
def performanceLine (filePath ext : String) (lines : List (List Char)) (idx : Nat)
    (line : List Char) : List CodeIssue :=
  let lineNumber := idx + 1
  let trimmed := jsTrim line
  if jsExts.contains ext then
    (if subStr "readFileSync" trimmed || subStr "writeFileSync" trimmed then
      [{ type := .performance, severity := .medium,
         message := "Synchronous file operation detected. Consider using async alternatives.",
         file := filePath, line := lineNumber,
         suggestion := some "Use readFile/writeFile with promises or async/await",
         ruleId := some "sync-file-ops" }]
    else []) ++
    (if subStr "for" trimmed && subStr "length" trimmed && !subStr "const" trimmed then
      [{ type := .performance, severity := .low,
         message := "Consider caching array length in loops for better performance.",
         file := filePath, line := lineNumber,
         suggestion := some "Store array.length in a variable before the loop",
         ruleId := some "inefficient-loop" }]
    else []) ++
    (if (subStr "getElementById" trimmed || subStr "querySelector" trimmed) &&
        ((match idx with
          | 0 => false
          | Nat.succ k => neighborHasGet (lines.get? k)) ||
          neighborHasGet (lines.get? (idx + 1))) then
      [{ type := .performance, severity := .medium,
         message := "Frequent DOM queries detected. Consider caching DOM elements.",
         file := filePath, line := lineNumber,
         suggestion := some "Cache DOM elements in variables to avoid repeated queries",
         ruleId := some "frequent-dom-queries" }]
    else [])
  else []

/-- Embedding of `checkPerformance`. -/
def checkPerformance (content : List Char) (filePath ext : String) : List CodeIssue :=
  let lines := splitLines content
  (lines.enum.map (fun p => performanceLine filePath ext lines p.1 p.2)).flatten

/-- Issues the `checkCodeStyle` rules emit for one line: mixed
indentation (a tab and a double space anywhere in the raw line) and
trailing whitespace. -/
def styleLine (filePath : String) (idx : Nat) (line : List Char) : List CodeIssue :=
  let lineNumber := idx + 1
  (if subStr "\t" line && subStr "  " line then
    [{ type := .style, severity := .low,
       message := "Mixed indentation detected (tabs and spaces).",
       file := filePath, line := lineNumber,
       suggestion := some "Use consistent indentation (either tabs or spaces)",
       ruleId := some "mixed-indentation" }]
  else []) ++
  (if line.getLast? == some ' ' || line.getLast? == some '\t' then
    [{ type := .style, severity := .low,
       message := "Trailing whitespace detected.",
       file := filePath, line := lineNumber,
       suggestion := some "Remove trailing whitespace",
       ruleId := some "trailing-whitespace" }]
  else [])

/-- Embedding of `checkCodeStyle`. -/
def checkCodeStyle (content : List Char) (filePath : String) : List CodeIssue :=
  ((splitLines content).enum.map (fun p => styleLine filePath p.1 p.2)).flatten

/-- The issue list built by this service's `analyzeFile`: the four rule
sets in push order.  The extension is `path.extname(filePath)` lowercased;
it is passed explicitly so that theorems can quantify over it. -/
def heuristicIssues (content : List Char) (filePath ext : String) : List CodeIssue :=
  checkCodeQuality content filePath ext ++
    checkSecurity content filePath ext ++
    checkPerformance content filePath ext ++
    checkCodeStyle content filePath

end HeuristicSvc

namespace ProviderSvc

/-- The extensions registered by `initializeSupportedLanguages`, i.e. the
keys of the `supportedLanguages` map, in insertion order.  The map values
(language records) are only used to build the AI prompt, which the
embedding treats as part of the opaque completion capability. -/
def supportedLanguageExts : List String :=
  [".js", ".jsx", ".ts", ".tsx", ".py", ".java", ".go", ".rs"]

/-- The fixed extension list of `findFiles`, the directory walker. -/
def findFilesSupportedExtensions : List String :=
  [".js", ".ts", ".jsx", ".tsx", ".py", ".java", ".cpp", ".c", ".go", ".rs"]

/-- Result of one third-party provider run (`ThirdPartyAnalysisResult`).
The orchestrator only ever reads the issue list and stores the record
whole; the remaining fields (analysis id, timestamp, statistics,
suggestions, raw response) are opaque to it and omitted here.  The
interface has no field that could mark a result as failed. -/
structure TPResult where
  providerId : String
  issues : List CodeIssue
deriving DecidableEq, Repr

/-- Summary block of a `CodeReviewResult`. -/
structure Summary where
  totalIssues : Nat
  criticalIssues : Nat
  highIssues : Nat
  mediumIssues : Nat
  lowIssues : Nat
deriving DecidableEq, Repr

/-- Metrics block of a `CodeReviewResult`. -/
structure Metrics where
  linesOfCode : Nat
  complexity : Nat
  maintainabilityIndex : Int
deriving DecidableEq, Repr

/-- The engine's final output (`CodeReviewResult`). -/
structure CodeReviewResult where
  summary : Summary
  issues : List CodeIssue
  metrics : Metrics
  thirdPartyResults : List TPResult
deriving DecidableEq, Repr

/-- Environment of one `analyzeFile` call: the file content read from
disk, the issues the AI analysis produced for it (the completion
capability is injected and opaque; `performAIAnalysis` never throws and
returns `[]` on any failure), and, for each enabled provider that is
registered, the outcome of its `analyzeFile` call in invocation order
(the caller-specified provider list, or registration order). -/
structure FileEnv where
  content : List Char
  aiIssues : List CodeIssue
  providerRuns : List (Except String TPResult)
deriving Repr

/-- The keyword list of the cyclomatic-complexity counter, as character
lists for comparison with split pieces. -/
def complexityKeywordsChars : List (List Char) :=
  ["if", "else", "while", "for", "case", "catch", "&&", "||", "?"].map String.toList

/-- Embedding of the complexity part of `calculateMetrics`: one plus the
number of pieces of `content.split(/\s+/)` that equal a keyword. -/
def calculateComplexity (content : List Char) : Nat :=
  1 + (jsSplitWs content).countP (fun w => complexityKeywordsChars.contains w)

/-- Embedding of `calculateMetrics`: non-blank line count, keyword
complexity, and the per-file maintainability index
`round(max(0, 171 − 5.2·ln(linesOfCode) − 0.23·complexity))`.  `Math.log`
is modelled by `Real.log`; for a zero line count JavaScript would produce
`-Infinity` under the logarithm, which the real-valued model does not
represent, so maintainability statements are restricted to positive line
counts. -/
noncomputable def calculateMetrics (content : List Char) : Metrics :=
  let lines := splitLines content
  let linesOfCode := (lines.filter (fun l => 0 < (jsTrim l).length)).length
  let complexity := calculateComplexity content
  { linesOfCode := linesOfCode,
    complexity := complexity,
    maintainabilityIndex :=
      round (max 0 ((171 : ℝ) - 5.2 * Real.log linesOfCode - 0.23 * complexity)) }

/-- Embedding of `generateSummary`: total count plus one count per
severity bucket; the interface has no bucket for `info`. -/
def generateSummary (issues : List CodeIssue) : Summary :=
  { totalIssues := issues.length,
    criticalIssues := issues.countP (fun i => decide (i.severity = .critical)),
    highIssues := issues.countP (fun i => decide (i.severity = .high)),
    mediumIssues := issues.countP (fun i => decide (i.severity = .medium)),
    lowIssues := issues.countP (fun i => decide (i.severity = .low)) }

/-- The provider loop of `analyzeFile`: for each run in order, a success
appends its record to `thirdPartyResults` and its issues to the issue
accumulator; a failure is only logged (`console.warn`) and contributes
nothing.  The accumulator starts as `([], aiIssues)` because the AI
issues are pushed before the loop. -/
def providerLoop (runs : List (Except String TPResult))
    (init : List TPResult × List CodeIssue) : List TPResult × List CodeIssue :=
  runs.foldl
    (fun acc run =>
      match run with
      | .ok r => (acc.1 ++ [r], acc.2 ++ r.issues)
      | .error _ => acc)
    init

/-- The successful outcomes of a run list, in order. -/
def okResults (runs : List (Except String TPResult)) : List TPResult :=
  runs.filterMap
    (fun run =>
      match run with
      | .ok r => some r
      | .error _ => none)

/-- Embedding of the provider-orchestrating `analyzeFile`: reject
unsupported extensions, then merge AI issues and the issues of the
successful provider runs, compute metrics from the content and summarise.
The extension argument is `path.extname(filePath).toLowerCase()`. -/
noncomputable def analyzeFile (ext : String) (env : FileEnv) :
    Except String CodeReviewResult :=
  if supportedLanguageExts.contains ext = true then
    let acc := providerLoop env.providerRuns ([], env.aiIssues)
    .ok
      { summary := generateSummary acc.2,
        issues := acc.2,
        metrics := calculateMetrics env.content,
        thirdPartyResults := acc.1 }
  else
    .error ("Unsupported file type: " ++ ext)

/-- Embedding of the directory-scope maintainability index: the per-file
base further reduced by `16.2·ln(linesOfCode)` and by two points per
issue, rounded, then clamped at zero. -/
noncomputable def calculateMaintainabilityIndex
    (linesOfCode complexity issueCount : Nat) : Int :=
  max 0
    (round ((171 : ℝ) - 5.2 * Real.log linesOfCode - 0.23 * complexity -
      16.2 * Real.log linesOfCode - (issueCount : ℝ) * 2))

/-- Aggregation step of `analyzeDirectory` over the per-file results that
did not throw: concatenate issues and provider results in file order, sum
lines and complexity, recompute the maintainability index from the totals
and summarise the concatenated issues. -/
noncomputable def dirAggregate (oks : List CodeReviewResult) : CodeReviewResult :=
  let allIssues := (oks.map (fun r => r.issues)).flatten
  let allTPR := (oks.map (fun r => r.thirdPartyResults)).flatten
  let totalLoc := (oks.map (fun r => r.metrics.linesOfCode)).sum
  let totalCx := (oks.map (fun r => r.metrics.complexity)).sum
  { summary := generateSummary allIssues,
    issues := allIssues,
    metrics :=
      { linesOfCode := totalLoc,
        complexity := totalCx,
        maintainabilityIndex :=
          calculateMaintainabilityIndex totalLoc totalCx allIssues.length },
    thirdPartyResults := allTPR }

/-- Embedding of `analyzeDirectory` on the files the walker produced:
each file is analyzed, a file whose analysis throws is logged and skipped
(the `try`/`catch` around the loop body), and the survivors are
aggregated. -/
noncomputable def analyzeDirectory (files : List (String × FileEnv)) : CodeReviewResult :=
  dirAggregate (files.filterMap (fun fe => (analyzeFile fe.1 fe.2).toOption))

end ProviderSvc

namespace ReviewTool

/-- Embedding of the tool's `mapLegacyIssueType`: unknown strings fall
back to quality. -/
def mapLegacyIssueType (s : String) : CodeReviewType :=
  match s with
  | "quality" => .quality
  | "security" => .security
  | "performance" => .performance
  | "style" => .style
  | "bug" => .bug
  | "maintainability" => .maintainability
  | _ => .quality

/-- Embedding of the tool's `mapLegacySeverity`: unknown strings fall
back to medium. -/
def mapLegacySeverity (s : String) : SeverityLevel :=
  match s with
  | "critical" => .critical
  | "high" => .high
  | "medium" => .medium
  | "low" => .low
  | "info" => .info
  | _ => .medium

/-- The severity order list of `filterIssues`, least severe first. -/
def severityLevelsList : List SeverityLevel :=
  [.info, .low, .medium, .high, .critical]

/-- JavaScript `Array.indexOf`: position of the first occurrence, `-1`
when absent. -/
def jsIndexOf (l : List SeverityLevel) (a : SeverityLevel) : Int :=
  match l.findIdx? (fun x => x == a) with
  | some i => (i : Int)
  | none => -1

/-- Embedding of the tool's `filterIssues`: keep issues whose type is in
the mapped issue-type list, then, unless every severity is allowed, keep
issues whose severity position is at least the filter's position. -/
def filterIssues (issues : List CodeIssue) (severityFilter : String)
    (issueTypes : List String) : List CodeIssue :=
  let mappedIssueTypes := issueTypes.map mapLegacyIssueType
  let filtered := issues.filter (fun i => mappedIssueTypes.contains i.type)
  if severityFilter ≠ "all" then
    let minLevel := jsIndexOf severityLevelsList (mapLegacySeverity severityFilter)
    filtered.filter (fun i => minLevel ≤ jsIndexOf severityLevelsList i.severity)
  else
    filtered

/-- Embedding of the post-filter result construction in
`executeCodeReview`: the issue list is replaced by the filtered list and
every summary count is recomputed from it. -/
def applyFilterToResult (r : ProviderSvc.CodeReviewResult) (severityFilter : String)
    (issueTypes : List String) : ProviderSvc.CodeReviewResult :=
  let filteredIssues := filterIssues r.issues severityFilter issueTypes
  { r with
    issues := filteredIssues,
    summary :=
      { totalIssues := filteredIssues.length,
        criticalIssues := filteredIssues.countP (fun i => decide (i.severity = .critical)),
        highIssues := filteredIssues.countP (fun i => decide (i.severity = .high)),
        mediumIssues := filteredIssues.countP (fun i => decide (i.severity = .medium)),
        lowIssues := filteredIssues.countP (fun i => decide (i.severity = .low)) } }

end ReviewTool

namespace ProvidersConfig

/-- Per-provider configuration (`ThirdPartyProviderConfig`).  The custom
headers and rate limits are never read by the validator or the settings
manager and are omitted. -/
structure TPConfig where
  apiKey : Option String := none
  endpoint : Option String := none
  timeout : Option Int := none
  retryAttempts : Option Int := none
deriving DecidableEq, Repr

/-- The `requiredConfig` lists of the built-in `PROVIDER_TEMPLATES`,
keyed by provider id; `none` for an id with no template. -/
def templateRequiredConfig (pid : String) : Option (List String) :=
  match pid with
  | "sonarqube" => some ["endpoint", "apiKey"]
  | "codeclimate" => some ["apiKey"]
  | "eslint" => some []
  | "semgrep" => some ["apiKey"]
  | "codeql" => some ["apiKey", "endpoint"]
  | _ => none

/-- JavaScript `required in config && config[required]` for the keys the
built-in templates can require: the key is present and its value truthy
(a missing optional field and an empty string or zero are both falsy). -/
def configKeyTruthy (cfg : TPConfig) (key : String) : Bool :=
  match key with
  | "apiKey" =>
    match cfg.apiKey with
    | some s => s ≠ ""
    | none => false
  | "endpoint" =>
    match cfg.endpoint with
    | some s => s ≠ ""
    | none => false
  | "timeout" =>
    match cfg.timeout with
    | some t => t ≠ 0
    | none => false
  | "retryAttempts" =>
    match cfg.retryAttempts with
    | some r => r ≠ 0
    | none => false
  | _ => false

/-- Modelled from the spec: "URL well-formedness" — the validator calls
the host platform's `new URL(...)` constructor, which is not part of this
repository.  The model accepts exactly the strings with an RFC-3986-style
scheme (a letter followed by letters, digits, `+`, `-` or `.`) before a
colon, which agrees with the WHATWG constructor on every string the
sources and the specification exercise. -/
def jsURLCanParse (s : String) : Bool :=
  let cs := s.toList
  let pre := cs.takeWhile (fun c => !(c == ':'))
  let rest := cs.dropWhile (fun c => !(c == ':'))
  (!rest.isEmpty) &&
    (match pre with
     | c :: _ => c.isAlpha
     | [] => false) &&
    pre.all (fun c => c.isAlphanum || c == '+' || c == '-' || c == '.')

/-- The required-key loop of `validateProviderConfig`: one error per
required key that is absent or falsy, in template order. -/
def requiredErrors (required : List String) (cfg : TPConfig) : List String :=
  (required.filter (fun k => !configKeyTruthy cfg k)).map
    (fun k => "Missing required configuration: " ++ k)

/-- The endpoint check of `validateProviderConfig`: run only for a truthy
endpoint, failing when the URL constructor rejects it. -/
def endpointErrors (cfg : TPConfig) : List String :=
  match cfg.endpoint with
  | some ep => if ep ≠ "" && !jsURLCanParse ep then ["Invalid endpoint URL format"] else []
  | none => []

/-- The timeout range check of `validateProviderConfig`: run only for a
truthy (present and nonzero) timeout. -/
def timeoutErrors (cfg : TPConfig) : List String :=
  match cfg.timeout with
  | some t =>
    if t ≠ 0 && (t < 1000 || 300000 < t) then
      ["Timeout must be between 1000ms and 300000ms"]
    else []
  | none => []

/-- The retry range check of `validateProviderConfig`: run only for a
truthy (present and nonzero) retry count. -/
def retryErrors (cfg : TPConfig) : List String :=
  match cfg.retryAttempts with
  | some r =>
    if r ≠ 0 && (r < 0 || 10 < r) then ["Retry attempts must be between 0 and 10"] else []
  | none => []

/-- Embedding of `ConfigValidator.validateProviderConfig`: an unknown
provider id short-circuits; otherwise the required-key, endpoint-URL,
timeout-range and retry-range checks accumulate error strings in source
order, and the config is valid iff no error accumulated. -/
def validateProviderConfig (pid : String) (cfg : TPConfig) : Bool × List String :=
  match templateRequiredConfig pid with
  | none => (false, ["Unknown provider: " ++ pid])
  | some required =>
    let errors :=
      requiredErrors required cfg ++ endpointErrors cfg ++ timeoutErrors cfg ++ retryErrors cfg
    (errors.isEmpty, errors)

/-- State of the `ThirdPartyProvidersSettingsManager`: the configured
provider map (as an insertion-ordered association list, the `Map`
semantics) and the enabled-provider set. -/
structure SettingsState where
  providers : List (String × TPConfig) := []
  enabled : List String := []
deriving DecidableEq, Repr

/-- JavaScript `Map.set`: replace in place when the key exists, append
otherwise. -/
def mapSet (m : List (String × TPConfig)) (k : String) (v : TPConfig) :
    List (String × TPConfig) :=
  if m.any (fun p => p.1 == k) then
    m.map (fun p => if p.1 == k then (k, v) else p)
  else
    m ++ [(k, v)]

/-- Embedding of `setProviderConfig`: validate, throw with the joined
error list on failure (before any mutation), and otherwise store the
config.  The persistence call (`saveToSettings`) is a stub in the source
and changes no observable state. -/
def setProviderConfig (st : SettingsState) (pid : String) (cfg : TPConfig) :
    Except String SettingsState :=
  let v := validateProviderConfig pid cfg
  if v.1 then
    .ok { st with providers := mapSet st.providers pid cfg }
  else
    .error ("Configuration validation failed: " ++ String.intercalate ", " v.2)

end ProvidersConfig

namespace Spec

/-- Written from the claim for C2: the merged issue list is the heuristic
issues, then the AI issues, then the issues of the successful provider
runs in order. -/
def c2ClaimMerge (filePath ext : String) (env : ProviderSvc.FileEnv) : List CodeIssue :=
  HeuristicSvc.heuristicIssues env.content filePath ext ++
    env.aiIssues ++
    ((ProviderSvc.okResults env.providerRuns).map (fun r => r.issues)).flatten

/-- Written from the claim for C4: the directory maintainability index as
the specification states it,
`max(0, round(171 − 5.2·ln(L) − 0.23·C) − 2·N)`. -/
noncomputable def c4ClaimMaintainabilityIndex
    (linesOfCode complexity issueCount : Nat) : Int :=
  max 0
    (round ((171 : ℝ) - 5.2 * Real.log linesOfCode - 0.23 * complexity) -
      2 * (issueCount : Int))

/-- Written from the claim for C5: one plus the number of positions at
which one of the keywords occurs as a substring of the content. -/
def c5ClaimComplexity (content : List Char) : Nat :=
  1 + (ProviderSvc.complexityKeywordsChars.map (fun k => countSub k content)).sum

/-- The amended reading of C5: one plus the number of
whitespace-delimited words of the content that equal a keyword. -/
def c5AmendedComplexity (content : List Char) : Nat :=
  1 + (wsTokens content).countP (fun w => ProviderSvc.complexityKeywordsChars.contains w)

end Spec

theorem providerLoop_spec (runs : List (Except String ProviderSvc.TPResult)) :
    ∀ (tps : List ProviderSvc.TPResult) (iss : List CodeIssue),
      ProviderSvc.providerLoop runs (tps, iss) =
        (tps ++ ProviderSvc.okResults runs,
          iss ++ ((ProviderSvc.okResults runs).map (fun r => r.issues)).flatten) := by
  induction runs with
  | nil =>
    intro tps iss
    simp [ProviderSvc.providerLoop, ProviderSvc.okResults]
  | cons r rest ih =>
    intro tps iss
    cases r with
    | ok res =>
      have h1 : ProviderSvc.providerLoop (.ok res :: rest) (tps, iss) =
          ProviderSvc.providerLoop rest (tps ++ [res], iss ++ res.issues) := rfl
      rw [h1, ih]
      simp [ProviderSvc.okResults, List.filterMap_cons, List.append_assoc]
    | error e =>
      have h1 : ProviderSvc.providerLoop (.error e :: rest) (tps, iss) =
          ProviderSvc.providerLoop rest (tps, iss) := rfl
      rw [h1, ih]
      simp [ProviderSvc.okResults, List.filterMap_cons]

/-- Claim C7.  The heuristic rule set is embedded as a pure function of
the file content, the file path and the extension — the source rules read
no clock, randomness, network or ambient state — so two runs on identical
input return identical issue lists, in the same order with the same
fields. -/
theorem c7_heuristic_determinism (content : List Char) (filePath ext : String) :
    HeuristicSvc.heuristicIssues content filePath ext =
      HeuristicSvc.heuristicIssues content filePath ext := rfl

/-- Claim C6, counterexample.  Scanning the JavaScript line
`const apiKey = "sk-1234567890"` produces no issue whose `source` field is
`"heuristic"`: the heuristic service's `CodeIssue` interface has no
`source` field, so the claimed conjunct fails on every produced issue. -/
theorem c6_hardcoded_secret_counterexample :
    ((HeuristicSvc.heuristicIssues ("const apiKey = \"sk-1234567890\"").toList
        "app.js" ".js").any (fun i => i.source == some "heuristic")) = false := by
  decide

/-- Claim C6, amended.  Scanning a single JavaScript file containing the
line `const apiKey = "sk-1234567890"` produces at least one issue of type
security with severity critical and rule id `hardcoded-secrets`; the
issue record carries no source tag (`source = none`). -/
theorem c6_hardcoded_secret :
    ((HeuristicSvc.heuristicIssues ("const apiKey = \"sk-1234567890\"").toList
        "app.js" ".js").any
      (fun i => i.type == .security && i.severity == .critical &&
        i.ruleId == some "hardcoded-secrets" && i.source == none)) = true := by
  decide

theorem analyzeFile_unsupported (ext : String) (env : ProviderSvc.FileEnv)
    (h : ProviderSvc.supportedLanguageExts.contains ext = false) :
    ProviderSvc.analyzeFile ext env = .error ("Unsupported file type: " ++ ext) := by
  unfold ProviderSvc.analyzeFile
  simp only [h]
  simp

theorem analyzeDirectory_skips_unsupported (fs1 fs2 : List (String × ProviderSvc.FileEnv))
    (ext : String) (env : ProviderSvc.FileEnv)
    (h : ProviderSvc.supportedLanguageExts.contains ext = false) :
    ProviderSvc.analyzeDirectory (fs1 ++ (ext, env) :: fs2) =
      ProviderSvc.analyzeDirectory (fs1 ++ fs2) := by
  have hnone : (ProviderSvc.analyzeFile ext env).toOption = none := by
    rw [analyzeFile_unsupported ext env h]
    rfl
  unfold ProviderSvc.analyzeDirectory
  rw [List.filterMap_append, List.filterMap_append, List.filterMap_cons]
  simp [hnone]

/-- Claim C10.  A file whose lowercase extension is outside the
supported-language map of the provider-orchestrating service is rejected
by `analyzeFile` with an "Unsupported file type" error; `.c` and `.cpp`
are collected by the directory walker's extension list but are not in
that map; and a directory scan silently drops any file whose analysis
throws, so such files contribute nothing to the aggregate. -/
theorem c10_unsupported_extension_rejected :
    (∀ (ext : String) (env : ProviderSvc.FileEnv),
        ProviderSvc.supportedLanguageExts.contains ext = false →
          ProviderSvc.analyzeFile ext env = .error ("Unsupported file type: " ++ ext)) ∧
    (ProviderSvc.findFilesSupportedExtensions.contains ".c" = true ∧
      ProviderSvc.findFilesSupportedExtensions.contains ".cpp" = true ∧
      ProviderSvc.supportedLanguageExts.contains ".c" = false ∧
      ProviderSvc.supportedLanguageExts.contains ".cpp" = false) ∧
    (∀ (fs1 fs2 : List (String × ProviderSvc.FileEnv)) (ext : String)
        (env : ProviderSvc.FileEnv),
        ProviderSvc.supportedLanguageExts.contains ext = false →
          ProviderSvc.analyzeDirectory (fs1 ++ (ext, env) :: fs2) =
            ProviderSvc.analyzeDirectory (fs1 ++ fs2)) :=
  ⟨analyzeFile_unsupported, by decide, analyzeDirectory_skips_unsupported⟩

theorem c10_unsupported_extension_rejected_witness :
    ProviderSvc.analyzeFile ".c" ⟨[], [], []⟩ = .error "Unsupported file type: .c" ∧
    ProviderSvc.analyzeDirectory [(".c", ⟨[], [], []⟩)] = ProviderSvc.analyzeDirectory [] :=
  ⟨c10_unsupported_extension_rejected.1 ".c" ⟨[], [], []⟩ (by decide),
    c10_unsupported_extension_rejected.2.2 [] [] ".c" ⟨[], [], []⟩ (by decide)⟩

/-- Claim C1, counterexample.  With three enabled providers of which
exactly one fails and two succeed, the result's provider-results list has
length 2, not 3: the failing provider's `analyzeFile` exception is only
logged (`console.warn`), no failure entry is pushed, and the result type
has no field that could mark an entry as failed. -/
theorem c1_provider_failure_recorded_counterexample :
    ((ProviderSvc.analyzeFile ".js"
        ⟨[], [], [.ok ⟨"p1", []⟩, .error "Timeout", .ok ⟨"p3", []⟩]⟩).map
      (fun r => r.thirdPartyResults.length)) ≠ .ok 3 := by
  have h : ((ProviderSvc.analyzeFile ".js"
      ⟨[], [], [.ok ⟨"p1", []⟩, .error "Timeout", .ok ⟨"p3", []⟩]⟩).map
      (fun r => r.thirdPartyResults.length)) = .ok 2 := rfl
  intro heq
  rw [h] at heq
  exact absurd (Except.ok.inj heq) (by decide)

/-- Claim C1, amended.  A provider failure never aborts the run: with
three enabled providers of which the second fails and the other two
succeed, the run returns a result whose provider-results list contains
exactly the two successful results in order (the failure is not
recorded), and whose issue list is the AI issues followed by the issues
of the two successful providers. -/
theorem c1_provider_failure_isolation (ext : String)
    (h : ProviderSvc.supportedLanguageExts.contains ext = true)
    (content : List Char) (ai : List CodeIssue)
    (r1 r3 : ProviderSvc.TPResult) (e : String) :
    ((ProviderSvc.analyzeFile ext ⟨content, ai, [.ok r1, .error e, .ok r3]⟩).map
        (fun r => (r.thirdPartyResults, r.issues))) =
      .ok ([r1, r3], ai ++ r1.issues ++ r3.issues) := by
  unfold ProviderSvc.analyzeFile
  simp only [h, eq_self_iff_true, if_true]
  simp [ProviderSvc.providerLoop, Except.map, List.append_assoc]

theorem c1_provider_failure_isolation_witness :
    ProviderSvc.supportedLanguageExts.contains ".js" = true ∧
    ((ProviderSvc.analyzeFile ".js"
        ⟨[], [], [.ok ⟨"p1", []⟩, .error "Timeout", .ok ⟨"p3", []⟩]⟩).map
      (fun r => (r.thirdPartyResults, r.issues))) = .ok ([⟨"p1", []⟩, ⟨"p3", []⟩], []) :=
  ⟨by decide,
    c1_provider_failure_isolation ".js" (by decide) [] [] ⟨"p1", []⟩ ⟨"p3", []⟩ "Timeout"⟩

/-- Claim C2, counterexample.  On a JavaScript file whose content is
`// TODO fix` (for which the heuristic scanner finds a technical-debt
issue), the merged issue list of the provider-orchestrating service's
`analyzeFile` differs from the claimed heuristic-then-AI-then-providers
merge: the service never invokes the heuristic scanner, so its merged
list is empty while the claimed list is not. -/
theorem c2_merge_order_counterexample :
    ((ProviderSvc.analyzeFile ".js" ⟨("// TODO fix").toList, [], []⟩).map
        (fun r => r.issues)) ≠
      .ok (Spec.c2ClaimMerge "app.js" ".js" ⟨("// TODO fix").toList, [], []⟩) := by
  have h : ((ProviderSvc.analyzeFile ".js" ⟨("// TODO fix").toList, [], []⟩).map
      (fun r => r.issues)) = .ok [] := rfl
  intro heq
  rw [h] at heq
  exact absurd (Except.ok.inj heq) (by decide)

/-- Claim C2, amended.  For every supported file the engine runs the AI
analyzer unconditionally and merges, in order: the AI issues first, then
each successful provider run's issues in invocation order.  No heuristic
scanner is invoked by this `analyzeFile`. -/
theorem c2_merge_order (ext : String)
    (h : ProviderSvc.supportedLanguageExts.contains ext = true)
    (env : ProviderSvc.FileEnv) :
    ((ProviderSvc.analyzeFile ext env).map (fun r => r.issues)) =
      .ok (env.aiIssues ++
        ((ProviderSvc.okResults env.providerRuns).map (fun r => r.issues)).flatten) := by
  unfold ProviderSvc.analyzeFile
  simp only [h, eq_self_iff_true, if_true]
  simp [providerLoop_spec, Except.map]

theorem c2_merge_order_witness :
    ProviderSvc.supportedLanguageExts.contains ".js" = true ∧
    ((ProviderSvc.analyzeFile ".js" ⟨[], [], []⟩).map (fun r => r.issues)) = .ok [] :=
  ⟨by decide, c2_merge_order ".js" (by decide) ⟨[], [], []⟩⟩

theorem severity_countP_partition (l : List CodeIssue) :
    l.countP (fun i => decide (i.severity = .critical)) +
      l.countP (fun i => decide (i.severity = .high)) +
      l.countP (fun i => decide (i.severity = .medium)) +
      l.countP (fun i => decide (i.severity = .low)) +
      l.countP (fun i => decide (i.severity = .info)) = l.length := by
  induction l with
  | nil => simp
  | cons a t ih =>
    simp only [List.countP_cons, List.length_cons]
    cases h : a.severity <;> simp [h] <;> omega

/-- Claim C3, counterexample.  A review result holding a single
info-severity issue that survives the filter has post-filter
`summary.totalIssues = 1`, but the four per-severity summary counts sum
to 0: the summary has no bucket for info, so the claimed identity
`critical + high + medium + low = totalIssues` fails. -/
theorem c3_summary_consistency_counterexample :
    ((ReviewTool.applyFilterToResult
          ⟨⟨0, 0, 0, 0, 0⟩,
            [{ type := .quality, severity := .info, message := "m", file := "f", line := 1 }],
            ⟨0, 0, 0⟩, []⟩ "all" ["quality"]).summary.criticalIssues +
        (ReviewTool.applyFilterToResult
          ⟨⟨0, 0, 0, 0, 0⟩,
            [{ type := .quality, severity := .info, message := "m", file := "f", line := 1 }],
            ⟨0, 0, 0⟩, []⟩ "all" ["quality"]).summary.highIssues +
        (ReviewTool.applyFilterToResult
          ⟨⟨0, 0, 0, 0, 0⟩,
            [{ type := .quality, severity := .info, message := "m", file := "f", line := 1 }],
            ⟨0, 0, 0⟩, []⟩ "all" ["quality"]).summary.mediumIssues +
        (ReviewTool.applyFilterToResult
          ⟨⟨0, 0, 0, 0, 0⟩,
            [{ type := .quality, severity := .info, message := "m", file := "f", line := 1 }],
            ⟨0, 0, 0⟩, []⟩ "all" ["quality"]).summary.lowIssues) ≠
      (ReviewTool.applyFilterToResult
        ⟨⟨0, 0, 0, 0, 0⟩,
          [{ type := .quality, severity := .info, message := "m", file := "f", line := 1 }],
          ⟨0, 0, 0⟩, []⟩ "all" ["quality"]).summary.totalIssues := by
  decide

/-- Claim C3, amended.  For every review result and caller filter, the
post-filter summary satisfies `totalIssues = length issues`, and the four
per-severity counts sum to `totalIssues` minus the number of
info-severity issues in the filtered list (so the claimed identity holds
exactly when no info-severity issue survives the filter; no built-in
source emits info severity, but provider adapters may). -/
theorem c3_summary_consistency (r : ProviderSvc.CodeReviewResult) (sf : String)
    (types : List String) :
    (ReviewTool.applyFilterToResult r sf types).summary.totalIssues =
      (ReviewTool.applyFilterToResult r sf types).issues.length ∧
    (ReviewTool.applyFilterToResult r sf types).summary.criticalIssues +
        (ReviewTool.applyFilterToResult r sf types).summary.highIssues +
        (ReviewTool.applyFilterToResult r sf types).summary.mediumIssues +
        (ReviewTool.applyFilterToResult r sf types).summary.lowIssues +
        (ReviewTool.applyFilterToResult r sf types).issues.countP
          (fun i => decide (i.severity = .info)) =
      (ReviewTool.applyFilterToResult r sf types).summary.totalIssues := by
  constructor
  · rfl
  · exact severity_countP_partition (ReviewTool.filterIssues r.issues sf types)

theorem filter_self_idem {α : Type} (p : α → Bool) (l : List α) :
    (l.filter p).filter p = l.filter p := by
  simp only [List.filter_filter]
  exact List.filter_congr (fun a _ => by cases p a <;> rfl)

theorem filter_two_idem {α : Type} (p q : α → Bool) (l : List α) :
    (((l.filter p).filter q).filter p).filter q = (l.filter p).filter q := by
  simp only [List.filter_filter]
  exact List.filter_congr (fun a _ => by cases p a <;> cases q a <;> rfl)

/-- Claim C8.  Applying the tool's issue filter (type filter, then
minimum-severity filter unless every severity is allowed) twice with the
same arguments yields exactly the result of applying it once. -/
theorem c8_filter_idempotent (issues : List CodeIssue) (severityFilter : String)
    (issueTypes : List String) :
    ReviewTool.filterIssues (ReviewTool.filterIssues issues severityFilter issueTypes)
        severityFilter issueTypes =
      ReviewTool.filterIssues issues severityFilter issueTypes := by
  unfold ReviewTool.filterIssues
  by_cases hsf : severityFilter = "all"
  · simp only [hsf, ne_eq, not_true_eq_false, if_false]
    exact filter_self_idem _ _
  · simp only [ne_eq, hsf, not_false_eq_true, if_true]
    exact filter_two_idem _ _ _

/-- Claim C9, counterexample.  `setConfig("vendorX", {endpoint:"not a url"})`
does fail validation and persists nothing, but the error is
"Unknown provider: vendorX" — the validator short-circuits on an id with
no template — and does not identify the `endpoint` field. -/
theorem c9_set_config_counterexample :
    ProvidersConfig.setProviderConfig ⟨[], []⟩ "vendorX"
        ⟨none, some "not a url", none, none⟩ =
      .error "Configuration validation failed: Unknown provider: vendorX" ∧
    subStr "endpoint"
        ("Configuration validation failed: Unknown provider: vendorX").toList = false := by
  exact ⟨rfl, by decide⟩

/-- Claim C9, amended.  `setProviderConfig` validates before it mutates:
a failing validation yields an error and can never produce a new state,
a passing validation stores exactly the given config; and for a provider
with a known template the field validators run and name the offending
field (invalid endpoint URL, timeout outside [1000, 300000], retry count
outside [0, 10], missing required apiKey).  For an id with no template
(such as "vendorX") the single error names the unknown provider instead
of a field. -/
theorem c9_set_config_validated_atomic :
    (∀ (st : ProvidersConfig.SettingsState) (pid : String)
        (cfg : ProvidersConfig.TPConfig) (st' : ProvidersConfig.SettingsState),
        (ProvidersConfig.validateProviderConfig pid cfg).1 = false →
          ProvidersConfig.setProviderConfig st pid cfg ≠ .ok st') ∧
    (∀ (st : ProvidersConfig.SettingsState) (pid : String)
        (cfg : ProvidersConfig.TPConfig),
        (ProvidersConfig.validateProviderConfig pid cfg).1 = true →
          ProvidersConfig.setProviderConfig st pid cfg =
            .ok { st with providers := ProvidersConfig.mapSet st.providers pid cfg }) ∧
    (∀ (cfg : ProvidersConfig.TPConfig) (ep : String),
        cfg.endpoint = some ep → ep ≠ "" → ProvidersConfig.jsURLCanParse ep = false →
          "Invalid endpoint URL format" ∈
            (ProvidersConfig.validateProviderConfig "sonarqube" cfg).2) ∧
    (∀ cfg : ProvidersConfig.TPConfig,
        cfg.apiKey = none →
          "Missing required configuration: apiKey" ∈
            (ProvidersConfig.validateProviderConfig "sonarqube" cfg).2) ∧
    (∀ (cfg : ProvidersConfig.TPConfig) (t : Int),
        cfg.timeout = some t → t ≠ 0 → (t < 1000 ∨ 300000 < t) →
          "Timeout must be between 1000ms and 300000ms" ∈
            (ProvidersConfig.validateProviderConfig "sonarqube" cfg).2) ∧
    (∀ (cfg : ProvidersConfig.TPConfig) (n : Int),
        cfg.retryAttempts = some n → n ≠ 0 → (n < 0 ∨ 10 < n) →
          "Retry attempts must be between 0 and 10" ∈
            (ProvidersConfig.validateProviderConfig "sonarqube" cfg).2) := by
  have hsq : ∀ cfg : ProvidersConfig.TPConfig,
      (ProvidersConfig.validateProviderConfig "sonarqube" cfg).2 =
        ProvidersConfig.requiredErrors ["endpoint", "apiKey"] cfg ++
          ProvidersConfig.endpointErrors cfg ++ ProvidersConfig.timeoutErrors cfg ++
          ProvidersConfig.retryErrors cfg := fun _ => rfl
  refine ⟨?_, ?_, ?_, ?_, ?_, ?_⟩
  · intro st pid cfg st' h
    simp [ProvidersConfig.setProviderConfig, h]
  · intro st pid cfg h
    simp [ProvidersConfig.setProviderConfig, h]
  · intro cfg ep hep hne hbad
    rw [hsq]
    have h2 : ProvidersConfig.endpointErrors cfg = ["Invalid endpoint URL format"] := by
      simp [ProvidersConfig.endpointErrors, hep, hne, hbad]
    rw [h2]
    simp
  · intro cfg hkey
    rw [hsq]
    have h2 : "Missing required configuration: apiKey" ∈
        ProvidersConfig.requiredErrors ["endpoint", "apiKey"] cfg := by
      apply List.mem_map.mpr
      refine ⟨"apiKey", ?_, rfl⟩
      apply List.mem_filter.mpr
      refine ⟨by simp, ?_⟩
      simp [ProvidersConfig.configKeyTruthy, hkey]
    simp [h2]
  · intro cfg t ht ht0 hrange
    rw [hsq]
    have h2 : ProvidersConfig.timeoutErrors cfg =
        ["Timeout must be between 1000ms and 300000ms"] := by
      rcases hrange with hlt | hgt
      · simp [ProvidersConfig.timeoutErrors, ht, ht0, hlt]
      · simp [ProvidersConfig.timeoutErrors, ht, ht0, hgt]
    rw [h2]
    simp
  · intro cfg n hn hn0 hrange
    rw [hsq]
    have h2 : ProvidersConfig.retryErrors cfg = ["Retry attempts must be between 0 and 10"] := by
      rcases hrange with hlt | hgt
      · simp [ProvidersConfig.retryErrors, hn, hn0, hlt]
      · simp [ProvidersConfig.retryErrors, hn, hn0, hgt]
    rw [h2]
    simp

theorem c9_set_config_validated_atomic_witness :
    (ProvidersConfig.validateProviderConfig "sonarqube"
        ⟨some "abcdefghijk", some "not a url", none, none⟩).1 = false ∧
    ProvidersConfig.setProviderConfig ⟨[], []⟩ "sonarqube"
        ⟨some "abcdefghijk", some "not a url", none, none⟩ ≠ .ok ⟨[], []⟩ ∧
    "Invalid endpoint URL format" ∈
      (ProvidersConfig.validateProviderConfig "sonarqube"
        ⟨some "abcdefghijk", some "not a url", none, none⟩).2 ∧
    (ProvidersConfig.validateProviderConfig "eslint" ⟨none, none, none, none⟩).1 = true ∧
    ProvidersConfig.setProviderConfig ⟨[], []⟩ "eslint" ⟨none, none, none, none⟩ =
      .ok ⟨[("eslint", ⟨none, none, none, none⟩)], []⟩ :=
  ⟨by decide,
    c9_set_config_validated_atomic.1 ⟨[], []⟩ "sonarqube"
      ⟨some "abcdefghijk", some "not a url", none, none⟩ ⟨[], []⟩ (by decide),
    c9_set_config_validated_atomic.2.2.1
      ⟨some "abcdefghijk", some "not a url", none, none⟩ "not a url" rfl (by decide) (by decide),
    by decide,
    c9_set_config_validated_atomic.2.1 ⟨[], []⟩ "eslint" ⟨none, none, none, none⟩ (by decide)⟩

/-- Claim C5, counterexample.  For the content `if(x)` the computed
complexity is 1 — the whitespace split yields the single word `if(x)`,
which is not in the keyword list — while the claimed
substring-occurrence count gives 2, since `if` occurs in the content. -/
theorem c5_complexity_counterexample :
    ProviderSvc.calculateComplexity ("if(x)").toList ≠
      Spec.c5ClaimComplexity ("if(x)").toList := by
  decide

theorem splitWs_tokens_countP (p : List Char → Bool) (hp : p [] = false) :
    ∀ (l cur : List Char) (lastWs : Bool), (lastWs = true → cur = []) →
      (jsSplitWsGo cur lastWs l).countP p = (wsTokensGo cur l).countP p := by
  intro l
  induction l with
  | nil =>
    intro cur lastWs _
    cases cur with
    | nil => simp [jsSplitWsGo, wsTokensGo, hp]
    | cons d ds => simp [jsSplitWsGo, wsTokensGo]
  | cons c t ih =>
    intro cur lastWs hinv
    by_cases hc : c.isWhitespace
    · cases lastWs with
      | true =>
        have hcur : cur = [] := hinv rfl
        subst hcur
        simp only [jsSplitWsGo, wsTokensGo, hc, if_true, List.isEmpty_nil]
        exact ih [] true (fun _ => rfl)
      | false =>
        have hrec := ih [] true (fun _ => rfl)
        cases cur with
        | nil => simp [jsSplitWsGo, wsTokensGo, hc, hp, List.countP_cons, hrec]
        | cons d ds => simp [jsSplitWsGo, wsTokensGo, hc, List.countP_cons, hrec]
    · simp only [jsSplitWsGo, wsTokensGo, hc, if_false]
      exact ih (c :: cur) false (fun h => absurd h (by simp))

theorem c4_code_value_at_2_1_0 : ProviderSvc.calculateMaintainabilityIndex 2 1 0 = 156 := by
  unfold ProviderSvc.calculateMaintainabilityIndex
  have hr : round ((171 : ℝ) - 5.2 * Real.log (2 : ℕ) - 0.23 * (1 : ℕ) -
      16.2 * Real.log (2 : ℕ) - ((0 : ℕ) : ℝ) * 2) = 156 := by
    rw [round_eq, Int.floor_eq_iff]
    push_cast
    constructor
    · nlinarith [Real.log_two_lt_d9]
    · nlinarith [Real.log_two_gt_d9]
  rw [hr]
  decide

theorem c4_claim_value_at_2_1_0 : Spec.c4ClaimMaintainabilityIndex 2 1 0 = 167 := by
  unfold Spec.c4ClaimMaintainabilityIndex
  have hr : round ((171 : ℝ) - 5.2 * Real.log (2 : ℕ) - 0.23 * (1 : ℕ)) = 167 := by
    rw [round_eq, Int.floor_eq_iff]
    push_cast
    constructor
    · nlinarith [Real.log_two_lt_d9]
    · nlinarith [Real.log_two_gt_d9]
  rw [hr]
  decide

/-- Claim C4, counterexample.  For a directory scan with 2 total lines of
code, total complexity 1 and no issues, the code computes
`round(171 − 5.2·ln 2 − 0.23 − 16.2·ln 2) = 156`, while the claimed
formula gives `round(171 − 5.2·ln 2 − 0.23) = 167`: the code's base
carries an extra `− 16.2·ln(linesOfCode)` term that the claim omits. -/
theorem c4_directory_maintainability_counterexample :
    ProviderSvc.calculateMaintainabilityIndex 2 1 0 ≠
      Spec.c4ClaimMaintainabilityIndex 2 1 0 := by
  rw [c4_code_value_at_2_1_0, c4_claim_value_at_2_1_0]
  decide

/-- Claim C4, amended.  For every directory scan with positive total
linesOfCode `L`, total complexity `C` and issue count `N`, the aggregate
maintainability index equals
`max(0, round(171 − 5.2·ln L − 0.23·C − 16.2·ln L) − 2·N)`: the claimed
shape with the issue penalty outside the rounding, but with the
additional `− 16.2·ln L` term the code's directory formula carries.  The
positivity hypothesis marks where the real-valued model of `Math.log`
applies (`Math.log(0)` is `-Infinity` in JavaScript). -/
theorem c4_directory_maintainability (L C N : ℕ) (h : 1 ≤ L) :
    ProviderSvc.calculateMaintainabilityIndex L C N =
      max 0 (round ((171 : ℝ) - 5.2 * Real.log L - 0.23 * C - 16.2 * Real.log L) -
        2 * (N : ℤ)) := by
  unfold ProviderSvc.calculateMaintainabilityIndex
  congr 1
  rw [show (171 : ℝ) - 5.2 * Real.log L - 0.23 * C - 16.2 * Real.log L - (N : ℝ) * 2 =
      ((171 : ℝ) - 5.2 * Real.log L - 0.23 * C - 16.2 * Real.log L) - ((2 * (N : ℤ) : ℤ) : ℝ)
    from by push_cast; ring]
  exact round_sub_int _ _

theorem c4_directory_maintainability_witness :
    1 ≤ 1 ∧
    ProviderSvc.calculateMaintainabilityIndex 1 0 0 =
      max 0 (round ((171 : ℝ) - 5.2 * Real.log ((1 : ℕ) : ℝ) - 0.23 * ((0 : ℕ) : ℝ) -
        16.2 * Real.log ((1 : ℕ) : ℝ)) - 2 * ((0 : ℕ) : ℤ)) :=
  ⟨by decide, c4_directory_maintainability 1 0 0 (by decide)⟩

/-- Claim C5, amended.  The computed cyclomatic complexity equals 1 plus
the number of whitespace-delimited words of the content that are exactly
one of the keywords `if, else, while, for, case, catch, &&, ||, ?`: an
occurrence of a keyword embedded in a larger word (such as `if(x)`)
contributes nothing. -/
theorem c5_complexity (content : List Char) :
    ProviderSvc.calculateComplexity content = Spec.c5AmendedComplexity content := by
  unfold ProviderSvc.calculateComplexity Spec.c5AmendedComplexity jsSplitWs wsTokens
  congr 1
  exact splitWs_tokens_countP _ (by decide) content [] false (fun _ => rfl)

end CodeReview
